import Mathlib

/-!
Shallow embedding of the plugin registry and lifecycle manager of the
aiidalab_alc package (src/aiidalab_alc/plugins.py and
src/aiidalab_alc/utils.py), together with theorems checking the
specification's claims about it.

The ambient Python environment (module resolution) and the operating
system (process spawning) are modelled as oracles passed explicitly;
in-place mutation of a descriptor is modelled by returning the updated
descriptor.
-/

namespace AlcUx

/-- Outcome of `importlib.import_module` on a probe target, supplied by the
ambient Python environment: the module loads, it raises `ImportError`
(which includes `ModuleNotFoundError`), or it raises some other exception
while loading. -/
inductive ImportOutcome where
  | ok : ImportOutcome
  | importErr : ImportOutcome
  | otherErr (msg : String) : ImportOutcome
deriving DecidableEq

/-- The ambient environment, mapping a module name to its load outcome. -/
def PyEnv := String → ImportOutcome

/-- Python exceptions that can escape the plugin-loading code paths. -/
inductive PyError where
  | keyError (key : String)
  | typeError (msg : String)
  | raised (msg : String)
deriving DecidableEq

/-- A raw configuration entry for one plugin: the dictionary `data` passed
to `PluginData.__init__`, restricted to the keys the constructor reads
(`package`, `import`, `description`); an absent key is `none`. -/
structure RawEntry where
  package : Option String
  importField : Option String
  description : Option String
deriving DecidableEq

/-- A constructed plugin descriptor (class `PluginData` in plugins.py). -/
structure PluginData where
  name : String
  package : String
  import_str : String
  description : String
  installed : Bool
deriving DecidableEq

/-- Embeds `self.package.replace("-", "_")`: Python `str.replace` with a
single-character pattern replaces each occurrence of that character. -/
def replaceHyphens (s : String) : String :=
  ⟨s.data.map fun c => if c = '-' then '_' else c⟩

/-- Embeds `PluginData._is_plugin_loaded`: try `import_module` on the probe
target, catching only `ImportError` (which yields `false`); any other
exception propagates out of the probe. -/
def is_plugin_loaded (env : PyEnv) (target : String) : Except String Bool :=
  match env target with
  | .ok => Except.ok true
  | .importErr => Except.ok false
  | .otherErr m => Except.error m

/-- Embeds `PluginData.__init__`: read `package` (KeyError when absent),
derive `import_str` from the optional field, defaulting to the package with
hyphens replaced by underscores, read `description` (KeyError when absent),
then probe the environment once; a non-ImportError exception raised by the
probe propagates. -/
def PluginData.init (env : PyEnv) (name : String) (data : RawEntry) :
    Except PyError PluginData :=
  match data.package with
  | none => Except.error (PyError.keyError "package")
  | some package =>
    let import_str := data.importField.getD (replaceHyphens package)
    match data.description with
    | none => Except.error (PyError.keyError "description")
    | some description =>
      match is_plugin_loaded env import_str with
      | .error m => Except.error (PyError.raised m)
      | .ok installed =>
          Except.ok { name := name, package := package,
                      import_str := import_str, description := description,
                      installed := installed }

/-- A YAML document as `yaml.safe_load` can yield it on this code path: a
mapping from plugin names to raw entries (in file iteration order), or
`None`, which the parser yields for an empty file. -/
inductive YamlDoc where
  | mapping (entries : List (String × RawEntry))
  | nullDoc

/-- Outcome of opening and parsing the configuration file at a path:
`FileNotFoundError`, `yaml.YAMLError`, or a parsed document. -/
inductive ReadOutcome where
  | fileNotFound (msg : String)
  | yamlError (msg : String)
  | parsed (doc : YamlDoc)

/-- Result of `PluginManager._get_plugin_list`: the produced list, or an
uncaught Python exception, together with the warning lines printed. -/
structure LoadResult where
  plugins : Except PyError (List PluginData)
  warnings : List String

/-- Embeds the loop `for key in data: plugins.append(PluginData(key,
data[key]))`: one descriptor per entry, in iteration order; an exception
raised by any construction aborts the loop. -/
def buildPlugins (env : PyEnv) :
    List (String × RawEntry) → Except PyError (List PluginData)
  | [] => Except.ok []
  | e :: rest =>
      match PluginData.init env e.1 e.2 with
      | .error err => Except.error err
      | .ok pd =>
          match buildPlugins env rest with
          | .error err => Except.error err
          | .ok pds => Except.ok (pd :: pds)

/-- Embeds `PluginManager._get_plugin_list`: on `FileNotFoundError` or
`yaml.YAMLError` it prints a warning line naming the path plus the
exception's text and returns the still-empty list; otherwise it iterates
the parsed document — iterating `None` raises an uncaught `TypeError`. -/
def get_plugin_list (env : PyEnv) (path : String) (read : ReadOutcome) :
    LoadResult :=
  match read with
  | .fileNotFound m =>
      { plugins := Except.ok [],
        warnings := ["WARNING: Failed to load plugin list from " ++ path, m] }
  | .yamlError m =>
      { plugins := Except.ok [],
        warnings := ["WARNING: Failed to load plugin list from " ++ path, m] }
  | .parsed (.mapping entries) =>
      { plugins := buildPlugins env entries, warnings := [] }
  | .parsed .nullDoc =>
      { plugins := Except.error
          (PyError.typeError "argument of type NoneType is not iterable"),
        warnings := [] }

/-- The fields of `subprocess.CompletedProcess` the code reads. -/
structure CompletedProcess where
  returncode : Int
  stdout : String
  stderr : String
deriving DecidableEq

/-- How the operating system answers a spawn request for an argument
vector: either the process runs to completion with an exit code and
captured streams, or it cannot be started at all. -/
inductive SpawnOutcome where
  | started (result : CompletedProcess)
  | spawnFailure (msg : String)

/-- The operating system oracle: argument vector to spawn outcome. -/
def OS := List String → SpawnOutcome

/-- Embeds `run_subprocess` in utils.py, a `subprocess.run` call capturing
both streams as text with checking disabled: the completed process is
returned whatever its exit code; only a failure to start the process
raises. -/
def run_subprocess (os : OS) (command : List String) :
    Except String CompletedProcess :=
  match os command with
  | .started r => Except.ok r
  | .spawnFailure m => Except.error m

/-- Embeds `PluginData.install`: run `pip install <package> --user`; on
exit code 0 set `installed` and return the captured stdout, otherwise
clear `installed` and return the captured stderr. The returned descriptor
models the in-place mutation of `self`. -/
def PluginData.install (os : OS) (pd : PluginData) :
    Except String (PluginData × String) :=
  match run_subprocess os ["pip", "install", pd.package, "--user"] with
  | .error m => Except.error m
  | .ok result =>
      if result.returncode = 0 then
        Except.ok ({ pd with installed := true }, result.stdout)
      else
        Except.ok ({ pd with installed := false }, result.stderr)

/-- Embeds `PluginData.uninstall`: run `pip uninstall <package> --user`;
the source sets `installed := true` on exit code 0 and `false` otherwise,
and returns nothing. -/
def PluginData.uninstall (os : OS) (pd : PluginData) :
    Except String PluginData :=
  match run_subprocess os ["pip", "uninstall", pd.package, "--user"] with
  | .error m => Except.error m
  | .ok result =>
      if result.returncode = 0 then
        Except.ok { pd with installed := true }
      else
        Except.ok { pd with installed := false }

/-- The registry sequence after the caller invokes `install` on the
descriptor at index `i`: Python mutates that list element in place, which
is replacing it at the same position. -/
def registryInstall (os : OS) (ps : List PluginData) (i : Nat) :
    Except String (List PluginData × String) :=
  match ps[i]? with
  | none => Except.error "index out of range"
  | some pd =>
      match PluginData.install os pd with
      | .error m => Except.error m
      | .ok (pd', out) => Except.ok (ps.set i pd', out)

/-- The registry sequence after the caller invokes `uninstall` on the
descriptor at index `i`, replacing it in place at the same position. -/
def registryUninstall (os : OS) (ps : List PluginData) (i : Nat) :
    Except String (List PluginData) :=
  match ps[i]? with
  | none => Except.error "index out of range"
  | some pd =>
      match PluginData.uninstall os pd with
      | .error m => Except.error m
      | .ok pd' => Except.ok (ps.set i pd')

/-- An environment in which no probe target resolves. -/
def envAbsent : PyEnv := fun _ => ImportOutcome.importErr

/-- An environment whose packages are present but broken: loading raises a
non-ImportError exception. -/
def envBroken : PyEnv := fun _ => ImportOutcome.otherErr "boom"

/-- The environment CPython realizes over the scenario entry: calling
`import_module` on the empty module name unconditionally raises
`ValueError: Empty module name` (not an ImportError), and no other module
resolves. -/
def envReal : PyEnv := fun t =>
  if t = "" then ImportOutcome.otherErr "Empty module name"
  else ImportOutcome.importErr

/-- A stub operating system whose every command completes with the given
exit code, stdout "out" and stderr "err". -/
def osExit (code : Int) : OS := fun _ =>
  SpawnOutcome.started { returncode := code, stdout := "out", stderr := "err" }

/-- A concrete descriptor used by witnesses. -/
def pd0 : PluginData :=
  { name := "foo", package := "foo-pkg", import_str := "foo_pkg",
    description := "Foo plugin", installed := true }

/-- The configuration entry of the spec's scenario 7. -/
def fooEntry : RawEntry :=
  { package := some "foo-pkg", importField := none,
    description := some "Foo plugin" }

/-- The descriptor that `fooEntry` constructs in `envAbsent`. -/
def pdFoo : PluginData :=
  { name := "foo", package := "foo-pkg", import_str := "foo_pkg",
    description := "Foo plugin", installed := false }

/-- Successful construction forces a present package field and fixes the
probe target to the optional field or the hyphen-replaced package. -/
theorem init_ok_import_str (env : PyEnv) (k : String) (e : RawEntry)
    (pd : PluginData) (h : PluginData.init env k e = Except.ok pd) :
    ∃ p, e.package = some p ∧
      pd.import_str = e.importField.getD (replaceHyphens p) := by
  obtain ⟨pkg, imp, desc⟩ := e
  cases pkg with
  | none => exact absurd h (by simp [PluginData.init])
  | some p =>
    cases desc with
    | none => exact absurd h (by simp [PluginData.init])
    | some d =>
      refine ⟨p, rfl, ?_⟩
      simp only [PluginData.init] at h
      cases hl : is_plugin_loaded env (imp.getD (replaceHyphens p)) with
      | error m => rw [hl] at h; exact absurd h (by simp)
      | ok b =>
        rw [hl] at h
        injection h with h2
        subst h2
        rfl

/-- Successful construction also means the construction-time probe ran on
the descriptor's probe target and returned a boolean rather than
raising. -/
theorem init_ok_probe_ok (env : PyEnv) (k : String) (e : RawEntry)
    (pd : PluginData) (h : PluginData.init env k e = Except.ok pd) :
    ∃ b, is_plugin_loaded env pd.import_str = Except.ok b := by
  obtain ⟨pkg, imp, desc⟩ := e
  cases pkg with
  | none => exact absurd h (by simp [PluginData.init])
  | some p =>
    cases desc with
    | none => exact absurd h (by simp [PluginData.init])
    | some d =>
      simp only [PluginData.init] at h
      cases hl : is_plugin_loaded env (imp.getD (replaceHyphens p)) with
      | error m => rw [hl] at h; exact absurd h (by simp)
      | ok b =>
        rw [hl] at h
        injection h with h2
        subst h2
        exact ⟨b, hl⟩

/-- An entry whose construction raises makes the whole loop raise: the
load aborts rather than skipping the failing entry. -/
theorem buildPlugins_error_of_mem (env : PyEnv)
    (entries : List (String × RawEntry)) (k : String) (e : RawEntry)
    (err : PyError) (hmem : (k, e) ∈ entries)
    (hfail : PluginData.init env k e = Except.error err) :
    ∃ err', buildPlugins env entries = Except.error err' := by
  induction entries with
  | nil => cases hmem
  | cons hd tl ih =>
    rcases List.mem_cons.mp hmem with heq | hmem'
    · refine ⟨err, ?_⟩
      rw [← heq]
      simp [buildPlugins, hfail]
    · cases hinit : PluginData.init env hd.1 hd.2 with
      | error e0 => exact ⟨e0, by simp [buildPlugins, hinit]⟩
      | ok pd =>
        obtain ⟨err', htl⟩ := ih hmem'
        exact ⟨err', by simp [buildPlugins, hinit, htl]⟩

/-- Claim C1 (code bug): evaluating `uninstall` at a stub whose subcommand
exits with code 0 leaves the descriptor with `installed = true`, not the
`false` the claim states; with exit code 1 it ends with `installed = false`
as claimed. -/
theorem uninstall_exit0_marks_installed :
    PluginData.uninstall (osExit 0) pd0 =
      Except.ok { pd0 with installed := true } ∧
    PluginData.uninstall (osExit 1) pd0 =
      Except.ok { pd0 with installed := false } :=
  ⟨rfl, rfl⟩

/-- Claim C2: when the configuration file is missing or fails to parse,
the load returns the empty sequence without raising, and its first warning
line names the attempted path. -/
theorem load_missing_or_malformed_returns_empty (env : PyEnv)
    (path m : String) :
    (get_plugin_list env path (ReadOutcome.fileNotFound m)).plugins =
      Except.ok [] ∧
    (get_plugin_list env path (ReadOutcome.yamlError m)).plugins =
      Except.ok [] ∧
    (get_plugin_list env path (ReadOutcome.fileNotFound m)).warnings =
      ["WARNING: Failed to load plugin list from " ++ path, m] ∧
    (get_plugin_list env path (ReadOutcome.yamlError m)).warnings =
      ["WARNING: Failed to load plugin list from " ++ path, m] :=
  ⟨rfl, rfl, rfl, rfl⟩

/-- Claim C9: the command runner returns the completed process — exit
code, stdout and stderr — for every argument vector whose process starts,
with no constraint on the exit code; it never raises on non-zero exit. -/
theorem run_subprocess_never_raises (os : OS) (command : List String)
    (r : CompletedProcess) (h : os command = SpawnOutcome.started r) :
    run_subprocess os command = Except.ok r := by
  unfold run_subprocess
  rw [h]

/-- Claim C9 witness: a stub exiting with code 1 still yields a result
carrying that code and both streams. -/
theorem run_subprocess_never_raises_witness :
    run_subprocess (osExit 1) ["pip", "install", "foo-pkg", "--user"] =
      Except.ok { returncode := 1, stdout := "out", stderr := "err" } :=
  run_subprocess_never_raises (osExit 1)
    ["pip", "install", "foo-pkg", "--user"]
    { returncode := 1, stdout := "out", stderr := "err" } rfl

/-- Claim C10: a document that parses to `None` makes the load raise an
uncaught `TypeError` while iterating, instead of returning an empty
sequence. -/
theorem null_document_raises (env : PyEnv) (path : String) :
    (get_plugin_list env path (ReadOutcome.parsed YamlDoc.nullDoc)).plugins =
      Except.error
        (PyError.typeError "argument of type NoneType is not iterable") ∧
    ∀ pds, (get_plugin_list env path
      (ReadOutcome.parsed YamlDoc.nullDoc)).plugins ≠ Except.ok pds :=
  ⟨rfl, fun _ h => Except.noConfusion h⟩

/-- Claim C3: on exit code 0 `install` marks the descriptor installed and
returns the captured stdout unchanged; on non-zero exit it marks it not
installed and returns the captured stderr. -/
theorem install_sets_state_and_report (os : OS) (pd : PluginData)
    (r : CompletedProcess)
    (h : os ["pip", "install", pd.package, "--user"] =
      SpawnOutcome.started r) :
    (r.returncode = 0 →
      PluginData.install os pd =
        Except.ok ({ pd with installed := true }, r.stdout)) ∧
    (r.returncode ≠ 0 →
      PluginData.install os pd =
        Except.ok ({ pd with installed := false }, r.stderr)) := by
  unfold PluginData.install run_subprocess
  rw [h]
  constructor
  · intro h0
    simp [h0]
  · intro h0
    simp [h0]

/-- Claim C3 witness: a stub runner exiting with code 0 yields an
installed descriptor and the stub's stdout. -/
theorem install_sets_state_and_report_witness :
    PluginData.install (osExit 0) pd0 =
      Except.ok ({ pd0 with installed := true }, "out") :=
  (install_sets_state_and_report (osExit 0) pd0
    { returncode := 0, stdout := "out", stderr := "err" } rfl).1 rfl

/-- Claim C4: an entry lacking `package` or `description` makes its
descriptor construction fail with a KeyError, and the presence of any such
entry aborts the whole load with an uncaught exception instead of the
entry being skipped. -/
theorem missing_field_aborts_load (env : PyEnv) (k : String) (e : RawEntry)
    (hmiss : e.package = none ∨ e.description = none) :
    (∃ key, PluginData.init env k e =
      Except.error (PyError.keyError key)) ∧
    ∀ entries : List (String × RawEntry), (k, e) ∈ entries →
      ∃ err, buildPlugins env entries = Except.error err := by
  have hkey : ∃ key, PluginData.init env k e =
      Except.error (PyError.keyError key) := by
    obtain ⟨pkg, imp, desc⟩ := e
    cases pkg with
    | none => exact ⟨"package", by simp [PluginData.init]⟩
    | some p =>
      cases desc with
      | none => exact ⟨"description", by simp [PluginData.init]⟩
      | some d => simp at hmiss
  refine ⟨hkey, fun entries hmem => ?_⟩
  obtain ⟨key, hk⟩ := hkey
  exact buildPlugins_error_of_mem env entries k e
    (PyError.keyError key) hmem hk

/-- The spec scenario entries used by the C4 witness: one well-formed
entry and one lacking its description. -/
def goodEntry : RawEntry :=
  { package := some "ok-pkg", importField := none, description := some "fine" }

/-- An entry missing the required description field. -/
def badEntry : RawEntry :=
  { package := some "foo-pkg", importField := none, description := none }

/-- Claim C4 witness: a load containing one malformed entry aborts even
though another entry is well-formed. -/
theorem missing_field_aborts_load_witness :
    ∃ err, buildPlugins envAbsent
      [("good", goodEntry), ("bad", badEntry)] = Except.error err :=
  (missing_field_aborts_load envAbsent "bad" badEntry (Or.inr rfl)).2
    [("good", goodEntry), ("bad", badEntry)] (by simp)

/-- Claim C5 counterexample: a probe target whose load raises a
non-ImportError exception makes the probe itself raise rather than report
absence, so not every load failure yields `false`. -/
theorem probe_other_failure_not_false :
    is_plugin_loaded envBroken "foo_pkg" = Except.error "boom" ∧
    is_plugin_loaded envBroken "foo_pkg" ≠ Except.ok false :=
  ⟨rfl, fun h => Except.noConfusion h⟩

/-- Claim C5 amended: the probe returns true when the module loads, false
when loading fails with an ImportError, and propagates any other load-time
exception instead of treating it as absence. -/
theorem probe_true_false_or_propagates (env : PyEnv) (t : String) :
    (env t = ImportOutcome.ok → is_plugin_loaded env t = Except.ok true) ∧
    (env t = ImportOutcome.importErr →
      is_plugin_loaded env t = Except.ok false) ∧
    (∀ m, env t = ImportOutcome.otherErr m →
      is_plugin_loaded env t = Except.error m) := by
  refine ⟨fun h => ?_, fun h => ?_, fun m h => ?_⟩ <;>
    simp [is_plugin_loaded, h]

/-- Claim C5 amended witness: in an environment where nothing resolves,
the probe reports false. -/
theorem probe_true_false_or_propagates_witness :
    is_plugin_loaded envAbsent "foo_pkg" = Except.ok false :=
  (probe_true_false_or_propagates envAbsent "foo_pkg").2.1 rfl

/-- Claim C6: a constructed descriptor's probe target equals the entry's
optional field when that field is present, else the package with every
hyphen replaced by an underscore. -/
theorem probe_target_derivation (env : PyEnv) (k : String) (e : RawEntry)
    (pd : PluginData) (h : PluginData.init env k e = Except.ok pd) :
    (∀ i, e.importField = some i → pd.import_str = i) ∧
    (e.importField = none → ∀ p, e.package = some p →
      pd.import_str = replaceHyphens p) := by
  obtain ⟨p, hp, himp⟩ := init_ok_import_str env k e pd h
  constructor
  · intro i hi
    rw [himp, hi]
    rfl
  · intro hnone q hq
    rw [hp] at hq
    injection hq with hq
    subst hq
    rw [himp, hnone]
    rfl

/-- Claim C6 witness: the spec's scenario entry, with no optional field,
derives probe target `foo_pkg` from package `foo-pkg`. -/
theorem probe_target_derivation_witness :
    pdFoo.import_str = replaceHyphens "foo-pkg" :=
  (probe_target_derivation envAbsent "foo" fooEntry pdFoo rfl).2
    rfl "foo-pkg" rfl

/-- Claim C7: every successfully constructed descriptor has a non-empty
probe target. In any environment where loading the empty module name
raises a non-ImportError exception — as CPython's `import_module` does
unconditionally (`ValueError: Empty module name`) — an empty probe target
would make the construction-time probe raise, so construction could not
have returned a descriptor. -/
theorem probe_target_nonempty (env : PyEnv) (k : String) (e : RawEntry)
    (pd : PluginData) (m : String)
    (hreal : env "" = ImportOutcome.otherErr m)
    (h : PluginData.init env k e = Except.ok pd) :
    pd.import_str ≠ "" := by
  intro hempty
  obtain ⟨b, hb⟩ := init_ok_probe_ok env k e pd h
  rw [hempty] at hb
  simp [is_plugin_loaded, hreal] at hb

/-- Claim C7 witness: in the CPython-realizable environment, the
scenario entry constructs a descriptor, and its probe target is
non-empty. -/
theorem probe_target_nonempty_witness :
    pdFoo.import_str ≠ "" :=
  probe_target_nonempty envReal "foo" fooEntry pdFoo "Empty module name"
    rfl rfl

/-- A successful install produces the input descriptor with only its
installed flag rewritten. -/
theorem install_ok_cases (os : OS) (pd pd' : PluginData) (out : String)
    (h : PluginData.install os pd = Except.ok (pd', out)) :
    pd' = { pd with installed := true } ∨
    pd' = { pd with installed := false } := by
  unfold PluginData.install run_subprocess at h
  cases hos : os ["pip", "install", pd.package, "--user"] with
  | spawnFailure m => rw [hos] at h; exact absurd h (by simp)
  | started r =>
    rw [hos] at h
    by_cases h0 : r.returncode = 0
    · left
      simp [h0] at h
      exact h.1.symm
    · right
      simp [h0] at h
      exact h.1.symm

/-- A successful uninstall produces the input descriptor with only its
installed flag rewritten. -/
theorem uninstall_ok_cases (os : OS) (pd pd' : PluginData)
    (h : PluginData.uninstall os pd = Except.ok pd') :
    pd' = { pd with installed := true } ∨
    pd' = { pd with installed := false } := by
  unfold PluginData.uninstall run_subprocess at h
  cases hos : os ["pip", "uninstall", pd.package, "--user"] with
  | spawnFailure m => rw [hos] at h; exact absurd h (by simp)
  | started r =>
    rw [hos] at h
    by_cases h0 : r.returncode = 0
    · left
      simp [h0] at h
      exact h.symm
    · right
      simp [h0] at h
      exact h.symm

/-- Claim C8: install and uninstall change only the installed flag — name,
package, probe target and description are preserved — and replacing the
registry entry in place preserves the sequence's length and every other
position. -/
theorem lifecycle_frame (os : OS) :
    (∀ pd pd' out, PluginData.install os pd = Except.ok (pd', out) →
      pd'.name = pd.name ∧ pd'.package = pd.package ∧
      pd'.import_str = pd.import_str ∧
      pd'.description = pd.description) ∧
    (∀ pd pd', PluginData.uninstall os pd = Except.ok pd' →
      pd'.name = pd.name ∧ pd'.package = pd.package ∧
      pd'.import_str = pd.import_str ∧
      pd'.description = pd.description) ∧
    (∀ ps i ps' out, registryInstall os ps i = Except.ok (ps', out) →
      ps'.length = ps.length ∧ ∀ j, j ≠ i → ps'[j]? = ps[j]?) ∧
    (∀ ps i ps', registryUninstall os ps i = Except.ok ps' →
      ps'.length = ps.length ∧ ∀ j, j ≠ i → ps'[j]? = ps[j]?) := by
  refine ⟨?_, ?_, ?_, ?_⟩
  · intro pd pd' out h
    rcases install_ok_cases os pd pd' out h with h1 | h1 <;>
      (subst h1; exact ⟨rfl, rfl, rfl, rfl⟩)
  · intro pd pd' h
    rcases uninstall_ok_cases os pd pd' h with h1 | h1 <;>
      (subst h1; exact ⟨rfl, rfl, rfl, rfl⟩)
  · intro ps i ps' out h
    unfold registryInstall at h
    cases hget : ps[i]? with
    | none => rw [hget] at h; exact absurd h (by simp)
    | some pd =>
      rw [hget] at h
      dsimp only at h
      cases hins : PluginData.install os pd with
      | error m => rw [hins] at h; exact absurd h (by simp)
      | ok po =>
        rw [hins] at h
        simp at h
        rw [← h.1]
        exact ⟨List.length_set ps i po.1,
          fun j hj => List.getElem?_set_ne (Ne.symm hj)⟩
  · intro ps i ps' h
    unfold registryUninstall at h
    cases hget : ps[i]? with
    | none => rw [hget] at h; exact absurd h (by simp)
    | some pd =>
      rw [hget] at h
      dsimp only at h
      cases huni : PluginData.uninstall os pd with
      | error m => rw [huni] at h; exact absurd h (by simp)
      | ok pd' =>
        rw [huni] at h
        simp at h
        rw [← h]
        exact ⟨List.length_set ps i pd',
          fun j hj => List.getElem?_set_ne (Ne.symm hj)⟩

/-- Claim C8 witness: a successful install on the concrete descriptor
leaves its package identifier unchanged. -/
theorem lifecycle_frame_witness :
    ({ pd0 with installed := true } : PluginData).package = pd0.package :=
  ((lifecycle_frame (osExit 0)).1 pd0 { pd0 with installed := true }
    "out" rfl).2.1

end AlcUx
